import Mathlib

/-!
Shallow embedding of the arkivisto scan-acquisition and post-processing
core (src/scan.rs, src/process.rs, src/fs_utils.rs, src/config.rs).

External collaborators (the interactive prompt library, the filesystem and
the external tools scanimage / magick / tiffcp / docker+ocrmypdf) are
modelled as oracles: explicit parameters recording the answer every
collaborator would give.  The embedded functions then return, besides the
Rust function's result, a trace of the observable effects (tool
invocations issued, files created, directories removed or renamed).
-/

namespace Arkivisto

/-- Mirrors `ScannerSources` from src/config.rs: the optional named scan
sources of one scanner. -/
structure ScannerSources where
  adf_single : Option String
  adf_duplex : Option String
  flatbed : Option String
deriving Repr, DecidableEq

/-- Mirrors `Scanner` from src/config.rs. -/
structure Scanner where
  id : String
  device_name : String
  additional_args : List String
  sources : ScannerSources
deriving Repr, DecidableEq

/-- Mirrors `ScanMode` from src/scan.rs. -/
inductive ScanMode where
  | adfSingleSided
  | adfDuplex
  | adfManualDuplex
  | flatbed (page_count : Nat)
deriving Repr, DecidableEq

/-- Mirrors `ScanMode::options` from src/scan.rs: build the list of
selectable modes by pushing, in order, `AdfSingleSided` when `adf_single`
is set, `AdfDuplex` when `adf_duplex` is set, `AdfManualDuplex` when
`adf_single` is set, and `Flatbed \x7b page_count: 0 \x7d` when `flatbed`
is set. -/
def ScanMode.options (available_sources : ScannerSources) : List ScanMode :=
  (if available_sources.adf_single.isSome then [ScanMode.adfSingleSided] else [])
  ++ (if available_sources.adf_duplex.isSome then [ScanMode.adfDuplex] else [])
  ++ (if available_sources.adf_single.isSome then [ScanMode.adfManualDuplex] else [])
  ++ (if available_sources.flatbed.isSome then [ScanMode.flatbed 0] else [])

/-- Mirrors `Resolution` from src/scan.rs. -/
inductive Resolution where
  | normal
  | high
deriving Repr, DecidableEq

/-- Mirrors `Resolution::as_dpi` from src/scan.rs. -/
def Resolution.as_dpi : Resolution → Nat
  | .normal => 300
  | .high => 600

/-- Error raised by the device-selection step.  The code has no dedicated
error constructor for an empty scanner list; the only failure path is the
error coming back from the interactive prompt (`inquire`), modelled
abstractly here. -/
inductive SelectErr where
  | promptFailed
deriving Repr, DecidableEq

/-- Observable outcome of `select_scanner`: whether the interactive
single-choice prompt was presented (and with which option list), and the
returned value. -/
structure SelectOutcome where
  prompted : Option (List Scanner)
  result : Except SelectErr Scanner
deriving Repr

/-- Mirrors `select_scanner` from src/scan.rs: if exactly one scanner is
configured, return it without interaction; otherwise (zero or several)
hand the whole list to the interactive single-choice prompt and return the
prompt collaborator's answer.  `promptPick` is the oracle for the prompt
collaborator. -/
def select_scanner (scanners : List Scanner)
    (promptPick : List Scanner → Except SelectErr Scanner) : SelectOutcome :=
  if h : scanners.length = 1 then
    { prompted := none, result := .ok (scanners.get ⟨0, by omega⟩) }
  else
    { prompted := some scanners, result := promptPick scanners }

/-- Mirrors the argument list built by `_scanimage` in src/scan.rs:
generic parameters (format, batch template, batch start, optional batch
count), resolution, fixed A4 page bounds, the resolved source, then the
scanner's configured additional arguments appended verbatim. -/
def scanimageArgs (scans_dir : String) (source : String) (start : Nat)
    (count : Option Nat) (resolution : Resolution)
    (additional_args : List String) : List String :=
  ["--format=tiff",
   "--batch=" ++ scans_dir ++ "/%d.tif",
   "--batch-start=" ++ toString (1000 + start)]
  ++ (match count with
      | some batch_count => ["--batch-count=" ++ toString batch_count]
      | none => [])
  ++ ["--resolution=" ++ toString resolution.as_dpi,
      "-x", "210", "-y", "297",
      "--source=" ++ source]
  ++ additional_args

/-- Numeric part of the name of the i-th page produced by a `scanimage`
batch invocation with batch offset `start`.  Follows the documented batch
semantics of the tool (doc comment of `_scanimage` in src/scan.rs and the
batch template `%d.tif` with `--batch-start=1000+start`): the first page
gets number `1000 + start`, each further page one more. -/
def batchFileNumber (start i : Nat) : Nat :=
  1000 + start + i

/-- Name of the i-th page file produced by a `scanimage` batch invocation
with batch offset `start`, per the `%d.tif` batch template. -/
def batchFileName (start i : Nat) : String :=
  toString (batchFileNumber start i) ++ ".tif"

/-- Record of one issued invocation of the external scanning tool: the
batch offset, the optional batch count, and the DPI passed. -/
structure Invocation where
  start : Nat
  count : Option Nat
  dpi : Nat
deriving Repr, DecidableEq

/-- Oracles for one run of the scan executor: the fake-scan flag, whether
the test fixture directory is usable, the success of the i-th scanning
tool invocation, and the operator's answer to the i-th flatbed per-page
confirmation (`none` means the prompt was cancelled). -/
structure ScanEnv where
  fake : Bool
  fixtureOk : Bool
  toolOk : Nat → Bool
  confirm : Nat → Option Bool

/-- Failure outcomes of `run_scanimage` in src/scan.rs.
`panicPageCountZero` stands for the `assert!` on a zero flatbed page
count, which aborts the process rather than returning an error. -/
inductive ScanErr where
  | sourceUnavailable
  | promptCancelled
  | userAborted
  | toolFailed
  | fixtureMissing
  | panicPageCountZero
deriving Repr, DecidableEq

/-- Result of the scan executor: the failure (`none` meaning success) plus
the trace of scanning-tool invocations that were issued. -/
structure RunResult where
  result : Option ScanErr
  invocations : List Invocation
deriving Repr, DecidableEq

/-- Mirrors the per-page flatbed loop of `run_scanimage` in src/scan.rs:
for each remaining page (page index `i`), ask the operator for
confirmation; a cancelled prompt propagates the prompt error, a declined
confirmation aborts with the user-abort error, a confirmed page issues one
single-page invocation (batch offset `i`, batch count 1) — or, in fake
mode, a fixture copy with no tool invocation — and stops on tool
failure. -/
def flatbedLoop (env : ScanEnv) (dpi : Nat) : Nat → Nat → RunResult
  | 0, _ => { result := none, invocations := [] }
  | remaining + 1, i =>
    match env.confirm i with
    | none => { result := some .promptCancelled, invocations := [] }
    | some false => { result := some .userAborted, invocations := [] }
    | some true =>
      if env.fake then
        if env.fixtureOk then
          flatbedLoop env dpi remaining (i + 1)
        else
          { result := some .fixtureMissing, invocations := [] }
      else if env.toolOk i then
        let rest := flatbedLoop env dpi remaining (i + 1)
        { result := rest.result,
          invocations := { start := i, count := some 1, dpi := dpi } :: rest.invocations }
      else
        { result := some .toolFailed,
          invocations := [{ start := i, count := some 1, dpi := dpi }] }

/-- Mirrors the source-string resolution at the top of `run_scanimage` in
src/scan.rs: each mode requires its named source; manual duplex reuses the
single-sided feeder source. -/
def sourceFor (s : ScannerSources) : ScanMode → Option String
  | .adfSingleSided => s.adf_single
  | .adfDuplex => s.adf_duplex
  | .adfManualDuplex => s.adf_single
  | .flatbed _ => s.flatbed

/-- Mirrors `run_scanimage` from src/scan.rs: resolve the source for the
chosen mode (failing when absent), then for feeder modes issue exactly one
invocation with batch offset 0 and no batch count, and for flatbed mode
assert a positive page count and run the per-page confirmation loop.  In
fake mode the tool is never invoked; the fixture copy stands in. -/
def run_scanimage (env : ScanEnv) (sc : Scanner) (mode : ScanMode)
    (resolution : Resolution) : RunResult :=
  match sourceFor sc.sources mode with
  | none => { result := some .sourceUnavailable, invocations := [] }
  | some _ =>
    match mode with
    | .flatbed page_count =>
      if page_count = 0 then
        { result := some .panicPageCountZero, invocations := [] }
      else
        flatbedLoop env resolution.as_dpi page_count 0
    | _ =>
      if env.fake then
        if env.fixtureOk then
          { result := none, invocations := [] }
        else
          { result := some .fixtureMissing, invocations := [] }
      else if env.toolOk 0 then
        { result := none,
          invocations := [{ start := 0, count := none, dpi := resolution.as_dpi }] }
      else
        { result := some .toolFailed,
          invocations := [{ start := 0, count := none, dpi := resolution.as_dpi }] }

/-- Failure outcomes of `scan_document` in src/scan.rs. -/
inductive ScanDocErr where
  | cacheDirFailed
  | ensureEmptyFailed
  | promptCancelled
  | scanFailed (e : ScanErr)
  | renameFailed
deriving Repr, DecidableEq

/-- Oracles for one run of `scan_document`: success of the cache-dir
resolution, of clearing the staging directory, the operator's mode choice
(handed the offered option list; `none` means cancelled), the flatbed page
count answer (the prompt validator only lets values ≥ 1 through), the
options answer (whether high DPI was ticked; `none` means cancelled),
success of the final rename, and the scan executor's oracles. -/
structure ScanDocEnv where
  cacheDirOk : Bool
  ensureEmptyOk : Bool
  modeChoice : List ScanMode → Option ScanMode
  pageCountAnswer : Option Nat
  optionsAnswer : Option Bool
  renameOk : Bool
  scan : ScanEnv

/-- Observable outcome of `scan_document`: the returned failure (`none`
meaning success), whether the "current" staging directory was (re)created,
whether it was renamed to the timestamped directory (the commit), whether
the scan-executor phase was reached and succeeded, and the trace of
scanning-tool invocations. -/
structure ScanDocOutcome where
  result : Option ScanDocErr
  currentCreated : Bool
  renamed : Bool
  scanOk : Bool
  invocations : List Invocation
deriving Repr, DecidableEq

/-- Mirrors `scan_document` from src/scan.rs: resolve the cache dir,
empty/create the "current" staging directory, prompt for mode (and, for
flatbed, page count), prompt for options, run the scan executor, and only
then rename "current" to the timestamp-named directory.  Every failure
returns early, leaving the staging directory un-renamed. -/
def scan_document (env : ScanDocEnv) (sc : Scanner) : ScanDocOutcome :=
  if !env.cacheDirOk then
    { result := some .cacheDirFailed, currentCreated := false, renamed := false,
      scanOk := false, invocations := [] }
  else if !env.ensureEmptyOk then
    { result := some .ensureEmptyFailed, currentCreated := false, renamed := false,
      scanOk := false, invocations := [] }
  else
    match env.modeChoice (ScanMode.options sc.sources) with
    | none =>
      { result := some .promptCancelled, currentCreated := true, renamed := false,
        scanOk := false, invocations := [] }
    | some mode0 =>
      let modeAfterCount : Option ScanMode :=
        match mode0 with
        | .flatbed _ => env.pageCountAnswer.map (fun n => ScanMode.flatbed n)
        | m => some m
      match modeAfterCount with
      | none =>
        { result := some .promptCancelled, currentCreated := true, renamed := false,
          scanOk := false, invocations := [] }
      | some mode =>
        match env.optionsAnswer with
        | none =>
          { result := some .promptCancelled, currentCreated := true, renamed := false,
            scanOk := false, invocations := [] }
        | some highdpi =>
          let resolution := if highdpi then Resolution.high else Resolution.normal
          let rr := run_scanimage env.scan sc mode resolution
          match rr.result with
          | some e =>
            { result := some (.scanFailed e), currentCreated := true, renamed := false,
              scanOk := false, invocations := rr.invocations }
          | none =>
            if env.renameOk then
              { result := none, currentCreated := true, renamed := true,
                scanOk := true, invocations := rr.invocations }
            else
              { result := some .renameFailed, currentCreated := true, renamed := false,
                scanOk := true, invocations := rr.invocations }

/-- State of the target path, as the filesystem sees it: absent, a
regular file, or a directory with the given contents. -/
inductive PathState where
  | absent
  | file
  | dir (contents : List String)
deriving Repr, DecidableEq

/-- Environmental conditions for one `ensure_empty_dir_exists` call:
whether the parent directory exists, and whether the recursive removal
and the creation primitive succeed when attempted (permissions etc.;
creation additionally requires the parent to exist). -/
structure FsCond where
  parentExists : Bool
  removeOk : Bool
  createOk : Bool
deriving Repr, DecidableEq

/-- Failure outcomes of `ensure_empty_dir_exists` in src/fs_utils.rs. -/
inductive FsErr where
  | notADirectory
  | removeFailed
  | createFailed
deriving Repr, DecidableEq

/-- Mirrors `ensure_empty_dir_exists` from src/fs_utils.rs: if the path
exists it must be a directory (else fail and leave it untouched), an
existing directory is removed recursively, and finally the directory is
created empty — creation needs the parent directory to exist already. -/
def ensure_empty_dir_exists (fs : FsCond) (st : PathState) :
    Except FsErr Unit × PathState :=
  match st with
  | .file => (.error .notADirectory, .file)
  | .dir contents =>
    if fs.removeOk then
      if fs.parentExists && fs.createOk then
        (.ok (), .dir [])
      else
        (.error .createFailed, .absent)
    else
      (.error .removeFailed, .dir contents)
  | .absent =>
    if fs.parentExists && fs.createOk then
      (.ok (), .dir [])
    else
      (.error .createFailed, .absent)

/-- One entry yielded by the directory enumeration in `process_document`
(src/process.rs): the entry read may fail, the file name may not be valid
unicode, or a name is produced. -/
inductive Entry where
  | err
  | badName
  | named (name : List Char)
deriving Repr, DecidableEq

/-- Character list of a string literal, used to state concrete file
names. -/
def strCharsOf (s : String) : List Char :=
  s.data

/-- Character list of the TIFF extension ".tif". -/
def tifSuffix : List Char :=
  strCharsOf ".tif"

/-- Mirrors the discovery filter of `process_document` in src/process.rs:
a file name qualifies as an unprocessed scanned page when it ends with
".tif" and contains no underscore. -/
def qualifies (name : List Char) : Bool :=
  tifSuffix.isSuffixOf name && !(name.contains '_')

/-- Fuelled left-to-right replacement of every non-overlapping occurrence
of `needle` by `repl`, the semantics of Rust's `str::replace`; the fuel is
an upper bound on the number of characters consumed. -/
def replFuel (needle repl : List Char) : Nat → List Char → List Char
  | 0, l => l
  | _ + 1, [] => []
  | f + 1, c :: rest =>
    if needle.isPrefixOf (c :: rest) then
      repl ++ replFuel needle repl f ((c :: rest).drop needle.length)
    else
      c :: replFuel needle repl f rest

/-- Mirrors `tif.replace(".tif", "_processed.tif")` from src/process.rs:
the name of the contrast-corrected sibling of a page file. -/
def processedName (tif : List Char) : List Char :=
  replFuel tifSuffix (strCharsOf "_processed.tif") tif.length tif

/-- Mirrors the `filter_map` + `collect` over the directory enumeration in
`process_document` (src/process.rs): walk the entries in order; the first
unreadable entry or non-decodable file name panics (every entry is
unwrapped before the filter runs), otherwise keep exactly the names that
qualify.  An `Except.error` models the panic, with the panic message. -/
def collectTifs : List Entry → Except String (List (List Char))
  | [] => .ok []
  | .err :: _ => .error "Failed to read directory entry"
  | .badName :: _ => .error "called `Option::unwrap()` on a `None` value"
  | .named n :: rest =>
    (collectTifs rest).map (fun l => if qualifies n then n :: l else l)

/-- Oracles for one run of `process_document`: the directory enumeration
(`none` when `read_dir` itself fails), success of the directory removal in
the no-pages branch, success of the i-th per-page contrast-tool call, of
the TIFF combine call, of the PDF conversion call, whether the directory
path converts to a unicode string for the container mount, and success of
the OCR container run. -/
structure ProcEnv where
  readDir : Option (List Entry)
  removeOk : Bool
  magickOk : Nat → Bool
  tiffcpOk : Bool
  convertOk : Bool
  dirPathOk : Bool
  ocrOk : Bool

/-- Typed failure outcomes of `process_document` in src/process.rs, one
per distinct error-return point. -/
inductive ProcError where
  | removeFailed
  | noTiffFiles
  | magickFailed
  | tiffcpFailed
  | magickConvertFailed
  | dirPathInvalid
  | ocrFailed
deriving Repr, DecidableEq

/-- Result of `process_document`: success, a process-terminating panic
(with its message), or a typed error. -/
inductive ProcResult where
  | ok
  | panicked (msg : String)
  | error (e : ProcError)
deriving Repr, DecidableEq

/-- Whether a `ProcResult` is a panic. -/
def ProcResult.isPanic : ProcResult → Bool
  | .panicked _ => true
  | _ => false

/-- Observable outcome of `process_document`: its result, whether the
document directory was deleted, the derived files created inside it (in
creation order), and the input file list handed to the TIFF combine tool
when that stage was reached. -/
structure ProcOutcome where
  result : ProcResult
  dirRemoved : Bool
  created : List (List Char)
  tiffcpCalled : Option (List (List Char))

/-- Mirrors the per-page contrast loop of `process_document` in
src/process.rs: process the discovered pages in order, at loop index `i`;
each successful tool call creates the `_processed` sibling and appends it
to the step-1 list; the first failing call aborts, keeping the outputs
created so far.  Returns the created outputs and whether the whole loop
succeeded. -/
def contrastLoop (ok : Nat → Bool) : Nat → List (List Char) → List (List Char) × Bool
  | _, [] => ([], true)
  | i, tif :: rest =>
    if ok i then
      let tail := contrastLoop ok (i + 1) rest
      (processedName tif :: tail.1, tail.2)
    else
      ([], false)

/-- Character list of the combined multi-page TIFF file name. -/
def combinedTifName : List Char :=
  strCharsOf "_combined.tif"

/-- Character list of the combined PDF file name. -/
def combinedPdfName : List Char :=
  strCharsOf "_combined.pdf"

/-- Character list of the final OCR output file name. -/
def finalPdfName : List Char :=
  strCharsOf "_final.pdf"

/-- Mirrors `process_document` from src/process.rs: enumerate the
directory (panicking on an unreadable directory, an unreadable entry or a
non-decodable name), keep the qualifying TIFF names; with none, delete the
whole directory and fail with the no-pages error; otherwise run the
contrast loop, then — each stage gated on the previous one — combine the
processed pages, convert to PDF, and run the containerized OCR, stopping
at the first tool failure and keeping earlier artifacts. -/
def process_document (env : ProcEnv) : ProcOutcome :=
  match env.readDir with
  | none =>
    { result := .panicked "Failed to read directory", dirRemoved := false,
      created := [], tiffcpCalled := none }
  | some entries =>
    match collectTifs entries with
    | .error msg =>
      { result := .panicked msg, dirRemoved := false,
        created := [], tiffcpCalled := none }
    | .ok tifs_step0 =>
      if tifs_step0.isEmpty then
        if env.removeOk then
          { result := .error .noTiffFiles, dirRemoved := true,
            created := [], tiffcpCalled := none }
        else
          { result := .error .removeFailed, dirRemoved := false,
            created := [], tiffcpCalled := none }
      else
        let step1 := contrastLoop env.magickOk 0 tifs_step0
        if step1.2 then
          let tifs_step1 := step1.1
          if env.tiffcpOk then
            if env.convertOk then
              if env.dirPathOk then
                if env.ocrOk then
                  { result := .ok, dirRemoved := false,
                    created := tifs_step1 ++ [combinedTifName, combinedPdfName, finalPdfName],
                    tiffcpCalled := some tifs_step1 }
                else
                  { result := .error .ocrFailed, dirRemoved := false,
                    created := tifs_step1 ++ [combinedTifName, combinedPdfName],
                    tiffcpCalled := some tifs_step1 }
              else
                { result := .error .dirPathInvalid, dirRemoved := false,
                  created := tifs_step1 ++ [combinedTifName, combinedPdfName],
                  tiffcpCalled := some tifs_step1 }
            else
              { result := .error .magickConvertFailed, dirRemoved := false,
                created := tifs_step1 ++ [combinedTifName],
                tiffcpCalled := some tifs_step1 }
          else
            { result := .error .tiffcpFailed, dirRemoved := false,
              created := tifs_step1, tiffcpCalled := some tifs_step1 }
        else
          { result := .error .magickFailed, dirRemoved := false,
            created := step1.1, tiffcpCalled := none }

/-- Whether a directory entry makes the discovery loop of
`process_document` panic: an unreadable entry or a non-decodable name. -/
def entryBad : Entry → Bool
  | .err => true
  | .badName => true
  | .named _ => false

/-- Condition under which `process_document` panics: the directory read
itself fails, or some entry is unreadable or has a non-decodable name. -/
def panicCond (env : ProcEnv) : Bool :=
  match env.readDir with
  | none => true
  | some entries => entries.any entryBad

/-- Whether a `scan_document` result is a failure coming out of the scan
executor (tool failure, user abort, cancelled confirmation, …). -/
def isScanFailure : Option ScanDocErr → Bool
  | some (.scanFailed _) => true
  | _ => false

/-- Concrete scanner used to instantiate the selector oracle. -/
def dummyScanner : Scanner :=
  { id := "dummy", device_name := "dummy-device", additional_args := [],
    sources := { adf_single := none, adf_duplex := none, flatbed := none } }

/-- Concrete prompt oracle that answers every selection with
`dummyScanner`. -/
def promptPickDummy : List Scanner → Except SelectErr Scanner :=
  fun _ => .ok dummyScanner

/-- Concrete scanner whose only configured source is the flatbed. -/
def scannerFlatbedOnly : Scanner :=
  { id := "fb", device_name := "fb-device", additional_args := [],
    sources := { adf_single := none, adf_duplex := none, flatbed := some "Flatbed" } }

/-- Concrete scan-executor oracles: real scan, every tool invocation
succeeds, every per-page confirmation is answered yes. -/
def scanEnvAllOk : ScanEnv :=
  { fake := false, fixtureOk := true, toolOk := fun _ => true,
    confirm := fun _ => some true }

/-- Concrete `scan_document` oracles: everything succeeds, the operator
picks the first offered mode, requests 2 flatbed pages, and ticks no
options. -/
def scanDocEnvAllOk : ScanDocEnv :=
  { cacheDirOk := true, ensureEmptyOk := true,
    modeChoice := fun opts => opts.head?,
    pageCountAnswer := some 2, optionsAnswer := some false,
    renameOk := true, scan := scanEnvAllOk }

/-- Concrete `process_document` oracles: empty readable directory, every
tool and filesystem operation succeeds. -/
def procEnvBase : ProcEnv :=
  { readDir := some [], removeOk := true, magickOk := fun _ => true,
    tiffcpOk := true, convertOk := true, dirPathOk := true, ocrOk := true }

/-- Concrete `process_document` oracles where reading the document
directory itself fails. -/
def procEnvUnreadableDir : ProcEnv :=
  { procEnvBase with readDir := none }

/-- Concrete file names none of which qualifies as a scannable page. -/
def noPageNames : List (List Char) :=
  [strCharsOf "notes.txt", strCharsOf "1000_processed.tif"]

/-- Concrete `process_document` oracles for a directory holding no
qualifying TIFF file. -/
def procEnvNoPages : ProcEnv :=
  { procEnvBase with readDir := some (noPageNames.map Entry.named) }

/-- Concrete page file names of a three-page document. -/
def pageNames3 : List (List Char) :=
  [strCharsOf "1000.tif", strCharsOf "1001.tif", strCharsOf "1002.tif"]

/-- Concrete `process_document` oracles for a three-page document where
the contrast tool succeeds on page 1 and fails on page 2. -/
def procEnvFailPage2 : ProcEnv :=
  { procEnvBase with
    readDir := some (pageNames3.map Entry.named),
    magickOk := fun i => decide (i < 1) }

/-- Concrete page file names enumerated in descending numeric order. -/
def descNames : List (List Char) :=
  [strCharsOf "1001.tif", strCharsOf "1000.tif"]

/-- Concrete `process_document` oracles for a directory enumerated in
descending numeric order, with every tool succeeding. -/
def procEnvDescOrder : ProcEnv :=
  { procEnvBase with readDir := some (descNames.map Entry.named) }

/-- Concrete filesystem conditions: parent exists and every primitive
succeeds. -/
def fsCondAllOk : FsCond :=
  { parentExists := true, removeOk := true, createOk := true }

/-- C3: for every SourceMap, `ScanMode.options` offers a mode iff its
required named source is present — AdfSingleSided and AdfManualDuplex iff
`adf_single` is set, AdfDuplex iff `adf_duplex` is set, Flatbed iff
`flatbed` is set; an empty source map yields the empty list, and a map
with only `adf_single` set yields exactly [AdfSingleSided,
AdfManualDuplex]. -/
theorem scanMode_options_iff_sources (s : ScannerSources) :
    ((ScanMode.adfSingleSided ∈ ScanMode.options s) ↔ s.adf_single.isSome)
    ∧ ((ScanMode.adfManualDuplex ∈ ScanMode.options s) ↔ s.adf_single.isSome)
    ∧ ((ScanMode.adfDuplex ∈ ScanMode.options s) ↔ s.adf_duplex.isSome)
    ∧ ((∃ n, ScanMode.flatbed n ∈ ScanMode.options s) ↔ s.flatbed.isSome)
    ∧ (s.adf_single = none → s.adf_duplex = none → s.flatbed = none →
        ScanMode.options s = [])
    ∧ (s.adf_single.isSome → s.adf_duplex = none → s.flatbed = none →
        ScanMode.options s = [ScanMode.adfSingleSided, ScanMode.adfManualDuplex]) := by
  obtain ⟨a, b, c⟩ := s
  cases a <;> cases b <;> cases c <;>
    simp [ScanMode.options]

/-- C3 witness: the option/source correspondence evaluated on a source
map with only `adf_single` set. -/
theorem scanMode_options_iff_sources_witness :
    ((ScanMode.adfSingleSided ∈ ScanMode.options ⟨some "ADF", none, none⟩) ↔
        (ScannerSources.mk (some "ADF") none none).adf_single.isSome)
    ∧ ((ScanMode.adfManualDuplex ∈ ScanMode.options ⟨some "ADF", none, none⟩) ↔
        (ScannerSources.mk (some "ADF") none none).adf_single.isSome)
    ∧ ((ScanMode.adfDuplex ∈ ScanMode.options ⟨some "ADF", none, none⟩) ↔
        (ScannerSources.mk (some "ADF") none none).adf_duplex.isSome)
    ∧ ((∃ n, ScanMode.flatbed n ∈ ScanMode.options ⟨some "ADF", none, none⟩) ↔
        (ScannerSources.mk (some "ADF") none none).flatbed.isSome)
    ∧ ((ScannerSources.mk (some "ADF") none none).adf_single = none →
        (ScannerSources.mk (some "ADF") none none).adf_duplex = none →
        (ScannerSources.mk (some "ADF") none none).flatbed = none →
        ScanMode.options ⟨some "ADF", none, none⟩ = [])
    ∧ ((ScannerSources.mk (some "ADF") none none).adf_single.isSome →
        (ScannerSources.mk (some "ADF") none none).adf_duplex = none →
        (ScannerSources.mk (some "ADF") none none).flatbed = none →
        ScanMode.options ⟨some "ADF", none, none⟩ =
          [ScanMode.adfSingleSided, ScanMode.adfManualDuplex]) :=
  scanMode_options_iff_sources ⟨some "ADF", none, none⟩

/-- C1 counterexample: handed the empty scanner list, `select_scanner`
does not fail via an explicit empty-list check — it presents the
interactive single-choice prompt with the empty option list and returns
whatever the prompt collaborator produces (here: a successful pick), so
the claimed `NoScannersConfigured`-before-prompting behavior is absent
from the code. -/
theorem select_scanner_empty_list_prompts :
    (select_scanner [] promptPickDummy).prompted = some []
    ∧ (select_scanner [] promptPickDummy).result = .ok dummyScanner := by
  constructor <;> rfl

/-- C1 amended: `select_scanner` contains no explicit empty-list check.
A one-element list is returned without any prompt; every other list —
including the empty one — is handed as-is to the interactive single-choice
prompt, and the selector returns the prompt collaborator's answer. -/
theorem select_scanner_single_or_prompt (scanners : List Scanner)
    (promptPick : List Scanner → Except SelectErr Scanner) :
    (∀ sc, scanners = [sc] →
        select_scanner scanners promptPick = { prompted := none, result := .ok sc })
    ∧ (scanners.length ≠ 1 →
        select_scanner scanners promptPick =
          { prompted := some scanners, result := promptPick scanners })
    ∧ (scanners = [] → (select_scanner scanners promptPick).prompted = some []) := by
  refine ⟨?_, ?_, ?_⟩
  · rintro sc rfl
    rfl
  · intro h
    simp [select_scanner, h]
  · rintro rfl
    rfl

/-- C1 amended witness: the single-scanner case evaluated concretely. -/
theorem select_scanner_single_or_prompt_witness :
    (∀ sc, [dummyScanner] = [sc] →
        select_scanner [dummyScanner] promptPickDummy =
          { prompted := none, result := .ok sc })
    ∧ (([dummyScanner] : List Scanner).length ≠ 1 →
        select_scanner [dummyScanner] promptPickDummy =
          { prompted := some [dummyScanner], result := promptPickDummy [dummyScanner] })
    ∧ (([dummyScanner] : List Scanner) = [] →
        (select_scanner [dummyScanner] promptPickDummy).prompted = some []) :=
  select_scanner_single_or_prompt [dummyScanner] promptPickDummy

/-- C8: the invocation built by `_scanimage` passes a batch start of
exactly `1000 + start`, so — per the `%d.tif` batch template — the first
scanned page is named `<1000+start>.tif` (start 0 gives `1000.tif`,
start 4 gives `1004.tif`) and each subsequent page number increments by
one. -/
theorem scanimage_batch_start_numbering (scans_dir source : String)
    (start : Nat) (count : Option Nat) (resolution : Resolution)
    (extra : List String) :
    ("--batch-start=" ++ toString (1000 + start))
        ∈ scanimageArgs scans_dir source start count resolution extra
    ∧ batchFileName start 0 = toString (1000 + start) ++ ".tif"
    ∧ (∀ i, batchFileNumber start (i + 1) = batchFileNumber start i + 1)
    ∧ batchFileName 0 0 = "1000.tif"
    ∧ batchFileName 4 0 = "1004.tif" := by
  refine ⟨?_, ?_, ?_, ?_, ?_⟩
  · simp [scanimageArgs]
  · simp [batchFileName, batchFileNumber]
  · intro i
    simp only [batchFileNumber]
    omega
  · rfl
  · rfl

/-- C8 witness: the batch-start argument and file numbering evaluated at
start 4 with a batch count of 1. -/
theorem scanimage_batch_start_numbering_witness :
    ("--batch-start=" ++ toString (1000 + 4))
        ∈ scanimageArgs "/scans" "Flatbed" 4 (some 1) .normal []
    ∧ batchFileName 4 0 = toString (1000 + 4) ++ ".tif"
    ∧ (∀ i, batchFileNumber 4 (i + 1) = batchFileNumber 4 i + 1)
    ∧ batchFileName 0 0 = "1000.tif"
    ∧ batchFileName 4 0 = "1004.tif" :=
  scanimage_batch_start_numbering "/scans" "Flatbed" 4 (some 1) .normal []

/-- C9: on a path whose parent directory exists (and whose removal, when
needed, the filesystem permits), one successful `ensure_empty_dir_exists`
call leaves the path an existing empty directory, and an immediate second
call succeeds again and leaves it an existing empty directory. -/
theorem ensure_empty_dir_exists_idempotent (fs : FsCond) (st : PathState)
    (hp : fs.parentExists = true) (hrm : fs.removeOk = true)
    (hok : (ensure_empty_dir_exists fs st).1 = .ok ()) :
    (ensure_empty_dir_exists fs st).2 = .dir []
    ∧ ensure_empty_dir_exists fs (ensure_empty_dir_exists fs st).2 =
        (.ok (), .dir []) := by
  have hc : fs.createOk = true := by
    cases st <;> by_cases h : fs.createOk <;>
      simp_all [ensure_empty_dir_exists]
  cases st <;> simp_all [ensure_empty_dir_exists]

/-- C9 witness: idempotence evaluated on an initially absent path with a
fully permissive filesystem. -/
theorem ensure_empty_dir_exists_idempotent_witness :
    fsCondAllOk.parentExists = true ∧ fsCondAllOk.removeOk = true
    ∧ (ensure_empty_dir_exists fsCondAllOk .absent).1 = .ok ()
    ∧ ((ensure_empty_dir_exists fsCondAllOk .absent).2 = .dir []
        ∧ ensure_empty_dir_exists fsCondAllOk
            (ensure_empty_dir_exists fsCondAllOk .absent).2 = (.ok (), .dir [])) :=
  ⟨rfl, rfl, rfl, ensure_empty_dir_exists_idempotent fsCondAllOk .absent rfl rfl rfl⟩

/-- Discovery lemma: on a directory whose entries are all readable and
decodable, the discovery loop returns exactly the qualifying names, in
enumeration order. -/
theorem collectTifs_named (names : List (List Char)) :
    collectTifs (names.map Entry.named) = .ok (names.filter (fun n => qualifies n)) := by
  induction names with
  | nil => rfl
  | cons n rest ih =>
    by_cases h : qualifies n = true <;>
      simp [collectTifs, ih, List.filter_cons, h, Except.map]

/-- The discovery loop panics exactly when some directory entry is
unreadable or has a non-decodable name. -/
theorem collectTifs_error_iff (es : List Entry) :
    (∃ m, collectTifs es = Except.error m) ↔ es.any entryBad = true := by
  induction es with
  | nil => simp [collectTifs]
  | cons e rest ih =>
    cases e with
    | err => simp [collectTifs, entryBad]
    | badName => simp [collectTifs, entryBad]
    | named n =>
      rcases h : collectTifs rest with m | l <;>
        simp_all [collectTifs, entryBad, Except.map]

/-- Contrast-loop lemma: when the tool succeeds on the first `j` pages
(relative to loop index `i`) and fails on the next, the loop stops there,
having created exactly the processed siblings of those `j` pages. -/
theorem contrastLoop_fail (ok : Nat → Bool) :
    ∀ (l : List (List Char)) (i j : Nat), j < l.length →
    (∀ d, d < j → ok (i + d) = true) → ok (i + j) = false →
    contrastLoop ok i l = ((l.take j).map processedName, false) := by
  intro l
  induction l with
  | nil =>
    intro i j hj _ _
    simp at hj
  | cons t rest ih =>
    intro i j hj hok hfail
    cases j with
    | zero =>
      have h0 : ok i = false := by simpa using hfail
      simp [contrastLoop, h0]
    | succ j' =>
      have h0 : ok i = true := by simpa using hok 0 (Nat.succ_pos j')
      have htail := ih (i + 1) j' (by simpa using hj)
        (fun d hd => by
          have e : i + 1 + d = i + (d + 1) := by omega
          rw [e]
          exact hok (d + 1) (by omega))
        (by
          have e : i + 1 + j' = i + (j' + 1) := by omega
          rw [e]
          exact hfail)
      simp [contrastLoop, h0, htail]

/-- Contrast-loop lemma: when the tool succeeds on every page, the loop
creates the processed sibling of every page, in order. -/
theorem contrastLoop_ok (ok : Nat → Bool) :
    ∀ (l : List (List Char)) (i : Nat),
    (∀ d, d < l.length → ok (i + d) = true) →
    contrastLoop ok i l = (l.map processedName, true) := by
  intro l
  induction l with
  | nil =>
    intro i _
    rfl
  | cons t rest ih =>
    intro i hok
    have h0 : ok i = true := by simpa using hok 0 (by simp)
    have htail := ih (i + 1)
      (fun d hd => by
        have e : i + 1 + d = i + (d + 1) := by omega
        rw [e]
        exact hok (d + 1) (by simpa using Nat.succ_lt_succ hd))
    simp [contrastLoop, h0, htail]

/-- C2 counterexample: with an unreadable document directory,
`process_document` panics (terminating the process) instead of returning
a typed failure, refuting the claim that no panic branch is reachable. -/
theorem process_document_panics_on_unreadable_dir :
    (process_document procEnvUnreadableDir).result = .panicked "Failed to read directory"
    ∧ (process_document procEnvUnreadableDir).result.isPanic = true := by
  constructor <;> rfl

/-- C2 amended: `process_document` panics exactly when the directory read
fails, an entry is unreadable, or a file name is not decodable; on every
other input (in particular on any tool failure and in the no-pages case)
it returns a typed failure or succeeds, never panicking. -/
theorem process_document_panic_characterization (env : ProcEnv) :
    (process_document env).result.isPanic = panicCond env := by
  rcases h : env.readDir with _ | es
  · simp [process_document, panicCond, h, ProcResult.isPanic]
  · rcases hb : es.any entryBad with _ | _
    · have hnone : ¬ ∃ m, collectTifs es = Except.error m := by
        rw [collectTifs_error_iff, hb]
        simp
      rcases hce : collectTifs es with m | l
      · exact absurd ⟨m, hce⟩ hnone
      · simp only [process_document, panicCond, h, hce, hb]
        split_ifs <;> rfl
    · obtain ⟨m, hm⟩ := (collectTifs_error_iff es).2 hb
      simp [process_document, panicCond, h, hm, hb, ProcResult.isPanic]

/-- C2 amended witness: the panic characterization evaluated on the
unreadable-directory input. -/
theorem process_document_panic_characterization_witness :
    (process_document procEnvUnreadableDir).result.isPanic = panicCond procEnvUnreadableDir :=
  process_document_panic_characterization procEnvUnreadableDir

/-- C5: a file is discovered as a scannable page iff its name ends in
".tif" and contains no underscore; and when no file of a (readable)
document directory qualifies, `process_document` deletes the whole
directory and fails with the no-pages error, creating nothing. -/
theorem process_document_no_pages (env : ProcEnv) (names : List (List Char))
    (hrd : env.readDir = some (names.map Entry.named))
    (hrm : env.removeOk = true)
    (hnone : ∀ n ∈ names, qualifies n = false) :
    (process_document env).result = .error .noTiffFiles
    ∧ (process_document env).dirRemoved = true
    ∧ (process_document env).created = []
    ∧ (∀ ms : List (List Char), collectTifs (ms.map Entry.named) =
        .ok (ms.filter (fun n => tifSuffix.isSuffixOf n && !(n.contains '_')))) := by
  have hfilter : names.filter (fun n => qualifies n) = [] := by
    rw [List.filter_eq_nil_iff]
    intro a ha
    simp [hnone a ha]
  refine ⟨?_, ?_, ?_, ?_⟩
  · simp [process_document, hrd, collectTifs_named, hfilter, hrm]
  · simp [process_document, hrd, collectTifs_named, hfilter, hrm]
  · simp [process_document, hrd, collectTifs_named, hfilter, hrm]
  · intro ms
    have := collectTifs_named ms
    simpa [qualifies] using this

/-- C5 witness: the no-pages behavior evaluated on a directory holding
only a text file and a leftover derived file. -/
theorem process_document_no_pages_witness :
    procEnvNoPages.readDir = some (noPageNames.map Entry.named)
    ∧ procEnvNoPages.removeOk = true
    ∧ (∀ n ∈ noPageNames, qualifies n = false)
    ∧ ((process_document procEnvNoPages).result = .error .noTiffFiles
        ∧ (process_document procEnvNoPages).dirRemoved = true
        ∧ (process_document procEnvNoPages).created = []
        ∧ (∀ ms : List (List Char), collectTifs (ms.map Entry.named) =
            .ok (ms.filter (fun n => tifSuffix.isSuffixOf n && !(n.contains '_'))))) :=
  ⟨rfl, rfl, by decide,
    process_document_no_pages procEnvNoPages noPageNames rfl rfl (by decide)⟩

/-- C6: when the contrast tool fails on page k (1 < k ≤ m) of an
m-page document, `process_document` returns the tool failure, the
processed siblings of pages 1..k-1 are exactly the files created (and
remain on disk), the combine tool is never invoked, and the directory is
not deleted. -/
theorem process_document_contrast_failure_frame (env : ProcEnv)
    (names : List (List Char)) (k : Nat)
    (hrd : env.readDir = some (names.map Entry.named))
    (hk1 : 1 < k)
    (hk2 : k ≤ (names.filter (fun n => qualifies n)).length)
    (hmag : ∀ i, i < k - 1 → env.magickOk i = true)
    (hfail : env.magickOk (k - 1) = false) :
    (process_document env).result = .error .magickFailed
    ∧ (process_document env).created =
        ((names.filter (fun n => qualifies n)).take (k - 1)).map processedName
    ∧ (process_document env).tiffcpCalled = none
    ∧ (process_document env).dirRemoved = false := by
  have hloop := contrastLoop_fail env.magickOk
    (names.filter (fun n => qualifies n)) 0 (k - 1)
    (by omega)
    (fun d hd => by simpa using hmag d hd)
    (by simpa using hfail)
  have hne : (names.filter (fun n => qualifies n)).isEmpty = false := by
    rw [List.isEmpty_eq_false]
    intro hnil
    rw [hnil] at hk2
    simp at hk2
    omega
  refine ⟨?_, ?_, ?_, ?_⟩ <;>
    simp [process_document, hrd, collectTifs_named, hne, hloop]

/-- C6 witness: the frame property evaluated on a three-page document
whose contrast stage fails on page 2. -/
theorem process_document_contrast_failure_frame_witness :
    procEnvFailPage2.readDir = some (pageNames3.map Entry.named)
    ∧ 1 < 2
    ∧ 2 ≤ (pageNames3.filter (fun n => qualifies n)).length
    ∧ (∀ i, i < 2 - 1 → procEnvFailPage2.magickOk i = true)
    ∧ procEnvFailPage2.magickOk (2 - 1) = false
    ∧ ((process_document procEnvFailPage2).result = .error .magickFailed
        ∧ (process_document procEnvFailPage2).created =
            ((pageNames3.filter (fun n => qualifies n)).take (2 - 1)).map processedName
        ∧ (process_document procEnvFailPage2).tiffcpCalled = none
        ∧ (process_document procEnvFailPage2).dirRemoved = false) :=
  ⟨rfl, by decide, by decide, by decide, by decide,
    process_document_contrast_failure_frame procEnvFailPage2 pageNames3 2
      rfl (by decide) (by decide) (by decide) (by decide)⟩

/-- C10: `process_document` applies no sorting — the combine tool
receives exactly the processed siblings of the discovered pages, in the
order the directory enumeration returned them; in particular, a directory
enumerated in descending numeric order is combined in that descending
order. -/
theorem process_document_combine_order (env : ProcEnv)
    (names : List (List Char))
    (hrd : env.readDir = some (names.map Entry.named))
    (hne : names.filter (fun n => qualifies n) ≠ [])
    (hmag : ∀ i, env.magickOk i = true) :
    (process_document env).tiffcpCalled =
        some ((names.filter (fun n => qualifies n)).map processedName)
    ∧ (process_document procEnvDescOrder).tiffcpCalled =
        some [strCharsOf "1001_processed.tif", strCharsOf "1000_processed.tif"] := by
  constructor
  · have hloop := contrastLoop_ok env.magickOk
      (names.filter (fun n => qualifies n)) 0 (fun d _ => hmag (0 + d))
    have hempty : (names.filter (fun n => qualifies n)).isEmpty = false := by
      rw [List.isEmpty_eq_false]
      exact hne
    simp [process_document, hrd, collectTifs_named, hempty, hloop]
    split_ifs <;> rfl
  · decide

/-- C10 witness: the combine order evaluated on the descending-order
directory. -/
theorem process_document_combine_order_witness :
    procEnvDescOrder.readDir = some (descNames.map Entry.named)
    ∧ descNames.filter (fun n => qualifies n) ≠ []
    ∧ ((process_document procEnvDescOrder).tiffcpCalled =
        some ((descNames.filter (fun n => qualifies n)).map processedName)
      ∧ (process_document procEnvDescOrder).tiffcpCalled =
        some [strCharsOf "1001_processed.tif", strCharsOf "1000_processed.tif"]) :=
  ⟨rfl, by decide,
    process_document_combine_order procEnvDescOrder descNames rfl (by decide)
      (fun _ => rfl)⟩

/-- Flatbed-loop lemma: when the operator confirms and the tool succeeds
for every remaining page, the loop issues one single-page invocation per
page, batch offset equal to the running page index. -/
theorem flatbedLoop_allOk (env : ScanEnv) (dpi : Nat) (hf : env.fake = false) :
    ∀ (r i : Nat),
    (∀ d, d < r → env.confirm (i + d) = some true) →
    (∀ d, d < r → env.toolOk (i + d) = true) →
    flatbedLoop env dpi r i =
      { result := none,
        invocations := (List.range r).map
          (fun d => { start := i + d, count := some 1, dpi := dpi }) } := by
  intro r
  induction r with
  | zero =>
    intro i _ _
    rfl
  | succ r' ih =>
    intro i hconf htool
    have h0 : env.confirm i = some true := by simpa using hconf 0 (Nat.succ_pos r')
    have t0 : env.toolOk i = true := by simpa using htool 0 (Nat.succ_pos r')
    have htail := ih (i + 1)
      (fun d hd => by
        have e : i + 1 + d = i + (d + 1) := by omega
        rw [e]
        exact hconf (d + 1) (by omega))
      (fun d hd => by
        have e : i + 1 + d = i + (d + 1) := by omega
        rw [e]
        exact htool (d + 1) (by omega))
    simp only [flatbedLoop, h0, hf, t0, htail]
    simp only [Bool.false_eq_true, if_false, if_true]
    refine congrArg (fun l => RunResult.mk none l) ?_
    rw [List.range_succ_eq_map, List.map_cons, List.map_map]
    refine congrArg₂ (fun a l => a :: l) (by simp) ?_
    refine List.map_congr_left (fun d _ => ?_)
    simp only [Function.comp_apply]
    refine congrArg (fun s => Invocation.mk s (some 1) dpi) ?_
    omega

/-- Flatbed-loop lemma: when the operator confirms the first `k` pages
(relative to index `i`), those scans succeed, and the operator declines
page `k`, the loop aborts with the user-abort error having issued exactly
the `k` earlier single-page invocations. -/
theorem flatbedLoop_abort (env : ScanEnv) (dpi : Nat) (hf : env.fake = false) :
    ∀ (r i k : Nat), k < r →
    (∀ d, d < k → env.confirm (i + d) = some true) →
    (∀ d, d < k → env.toolOk (i + d) = true) →
    env.confirm (i + k) = some false →
    flatbedLoop env dpi r i =
      { result := some .userAborted,
        invocations := (List.range k).map
          (fun d => { start := i + d, count := some 1, dpi := dpi }) } := by
  intro r
  induction r with
  | zero =>
    intro i k hk
    omega
  | succ r' ih =>
    intro i k hk hconf htool hdecl
    cases k with
    | zero =>
      have h0 : env.confirm i = some false := by simpa using hdecl
      simp [flatbedLoop, h0]
    | succ k' =>
      have h0 : env.confirm i = some true := by simpa using hconf 0 (Nat.succ_pos k')
      have t0 : env.toolOk i = true := by simpa using htool 0 (Nat.succ_pos k')
      have htail := ih (i + 1) k' (by omega)
        (fun d hd => by
          have e : i + 1 + d = i + (d + 1) := by omega
          rw [e]
          exact hconf (d + 1) (by omega))
        (fun d hd => by
          have e : i + 1 + d = i + (d + 1) := by omega
          rw [e]
          exact htool (d + 1) (by omega))
        (by
          have e : i + 1 + k' = i + (k' + 1) := by omega
          rw [e]
          exact hdecl)
      simp only [flatbedLoop, h0, hf, t0, htail]
      simp only [Bool.false_eq_true, if_false, if_true]
      refine congrArg (fun l => RunResult.mk (some .userAborted) l) ?_
      rw [List.range_succ_eq_map, List.map_cons, List.map_map]
      refine congrArg₂ (fun a l => a :: l) (by simp) ?_
      refine List.map_congr_left (fun d _ => ?_)
      simp only [Function.comp_apply]
      refine congrArg (fun s => Invocation.mk s (some 1) dpi) ?_
      omega

/-- C4: for a real flatbed scan of n ≥ 1 pages where the operator
confirms every per-page prompt and each single-page scan succeeds, the
executor issues exactly n tool invocations, the i-th with batch count 1
and batch offset i; and when the operator declines the confirmation for
page k (after confirming the earlier ones, which scanned fine), the whole
scan aborts with the user-abort error having issued exactly the k earlier
invocations and no further ones. -/
theorem run_scanimage_flatbed_invocations (env : ScanEnv) (sc : Scanner)
    (resolution : Resolution) (n k : Nat)
    (hn : 1 ≤ n) (hfake : env.fake = false)
    (hsrc : sc.sources.flatbed.isSome = true) :
    ((∀ i, i < n → env.confirm i = some true) →
      (∀ i, i < n → env.toolOk i = true) →
      run_scanimage env sc (.flatbed n) resolution =
        { result := none,
          invocations := (List.range n).map
            (fun i => { start := i, count := some 1, dpi := resolution.as_dpi }) })
    ∧ (k < n →
      (∀ i, i < k → env.confirm i = some true) →
      (∀ i, i < k → env.toolOk i = true) →
      env.confirm k = some false →
      run_scanimage env sc (.flatbed n) resolution =
        { result := some .userAborted,
          invocations := (List.range k).map
            (fun i => { start := i, count := some 1, dpi := resolution.as_dpi }) }) := by
  obtain ⟨src, hsome⟩ := Option.isSome_iff_exists.mp hsrc
  have hnz : ¬ n = 0 := by omega
  constructor
  · intro hconf htool
    have h := flatbedLoop_allOk env resolution.as_dpi hfake n 0
      (fun d hd => by simpa using hconf d hd)
      (fun d hd => by simpa using htool d hd)
    simp [run_scanimage, sourceFor, hsome, hnz, h]
  · intro hk hconf htool hdecl
    have h := flatbedLoop_abort env resolution.as_dpi hfake n 0 k hk
      (fun d hd => by simpa using hconf d hd)
      (fun d hd => by simpa using htool d hd)
      (by simpa using hdecl)
    simp [run_scanimage, sourceFor, hsome, hnz, h]

/-- C4 witness: the end-to-end flatbed scenario — a flatbed-only scanner,
2 pages requested, both prompts confirmed — yields exactly two
single-page invocations with batch offsets 0 and 1, both with batch
count 1. -/
theorem run_scanimage_flatbed_invocations_witness :
    1 ≤ 2 ∧ scanEnvAllOk.fake = false
    ∧ scannerFlatbedOnly.sources.flatbed.isSome = true
    ∧ run_scanimage scanEnvAllOk scannerFlatbedOnly (.flatbed 2) .normal =
        { result := none,
          invocations := (List.range 2).map
            (fun i => { start := i, count := some 1, dpi := Resolution.normal.as_dpi }) } :=
  ⟨by decide, rfl, rfl,
    (run_scanimage_flatbed_invocations scanEnvAllOk scannerFlatbedOnly .normal 2 0
      (by decide) rfl rfl).1 (by decide) (by decide)⟩

/-- C7: the "current" staging directory is renamed (committed) only when
the scan-executor phase succeeded; when the rename primitive itself works,
commit happens exactly on scan success; and on any scan failure or user
abort, `scan_document` returns the scan error with the staging directory
created but left un-renamed. -/
theorem scan_document_commit_iff_scan_success (env : ScanDocEnv) (sc : Scanner) :
    ((scan_document env sc).renamed = true → (scan_document env sc).scanOk = true)
    ∧ (env.renameOk = true →
        ((scan_document env sc).renamed = true ↔ (scan_document env sc).scanOk = true))
    ∧ (isScanFailure (scan_document env sc).result = true →
        (scan_document env sc).currentCreated = true
        ∧ (scan_document env sc).renamed = false) := by
  simp only [scan_document]
  repeat' split
  all_goals simp_all [isScanFailure]

/-- C7 witness: the successful-scan case evaluated concretely — a
flatbed-only scanner, every prompt answered, every tool call and the
rename succeeding — where the staging directory is committed. -/
theorem scan_document_commit_iff_scan_success_witness :
    (((scan_document scanDocEnvAllOk scannerFlatbedOnly).renamed = true →
        (scan_document scanDocEnvAllOk scannerFlatbedOnly).scanOk = true)
      ∧ (scanDocEnvAllOk.renameOk = true →
          ((scan_document scanDocEnvAllOk scannerFlatbedOnly).renamed = true ↔
            (scan_document scanDocEnvAllOk scannerFlatbedOnly).scanOk = true))
      ∧ (isScanFailure (scan_document scanDocEnvAllOk scannerFlatbedOnly).result = true →
          (scan_document scanDocEnvAllOk scannerFlatbedOnly).currentCreated = true
          ∧ (scan_document scanDocEnvAllOk scannerFlatbedOnly).renamed = false))
    ∧ (scan_document scanDocEnvAllOk scannerFlatbedOnly).renamed = true
    ∧ (scan_document scanDocEnvAllOk scannerFlatbedOnly).scanOk = true :=
  ⟨scan_document_commit_iff_scan_success scanDocEnvAllOk scannerFlatbedOnly,
    by decide, by decide⟩

end Arkivisto
